import Mathlib

/- Shallow embedding of the per-frame red-light-violation pipeline implemented in
   qt_app_pyside1/controllers/video_controller_finale.py.  Pixel coordinates are
   modelled as rationals, Python dict-shaped per-track state as an explicit
   structure, and the per-frame mutation sequence as explicit state passing. -/

/-- Configuration constant self.movement_threshold = 1.5 (line 125). -/
def movement_threshold : ℚ := 3 / 2

/-- Configuration constant self.position_history_size = 20 (line 129). -/
def position_history_size : Nat := 20

/-- Configuration constant self.crossing_check_window = 8 (line 130). -/
def crossing_check_window : Nat := 8

/-- Configuration constant self.max_position_jump = 50 (line 131). -/
def max_position_jump : ℚ := 50

/-- Translation of normalize_class_name (lines 43-71): case-insensitive synonym
    lookup mapping raw detector labels to canonical labels, passing unmapped
    labels through unchanged; the empty string maps to itself. -/
def normalize_class_name (class_name : String) : String :=
  if class_name = "" then ""
  else if class_name.toLower ∈ (["traffic light", "trafficlight", "traffic_light", "tl", "signal"] : List String) then "traffic light"
  else if class_name.toLower ∈ (["car", "auto", "automobile"] : List String) then "car"
  else if class_name.toLower ∈ (["truck"] : List String) then "truck"
  else if class_name.toLower ∈ (["bus"] : List String) then "bus"
  else if class_name.toLower ∈ (["motorcycle", "scooter", "motorbike", "bike"] : List String) then "motorcycle"
  else if class_name.toLower ∈ (["person", "pedestrian", "human"] : List String) then "person"
  else class_name

/-- Translation of is_traffic_light (lines 73-78). -/
def is_traffic_light (class_name : String) : Bool :=
  if class_name = "" then false
  else normalize_class_name class_name == "traffic light"

/-- Per-track mutable status dict created at lines 814-821. -/
structure TrackStatus where
  recent_movement : List Bool
  violation_history : List Bool
  crossed_during_red : Bool
  last_position : Option ℚ
  suspicious_jumps : Nat
deriving DecidableEq, Repr

/-- Initial status of a newly created track (lines 814-821). -/
def initStatus : TrackStatus :=
  { recent_movement := []
    violation_history := []
    crossed_during_red := false
    last_position := none
    suspicious_jumps := 0 }

/-- A bounding box x1, y1, x2, y2 in pixel space. -/
structure Box where
  x1 : ℚ
  y1 : ℚ
  x2 : ℚ
  y2 : ℚ
deriving DecidableEq, Repr

/-- center_y = (y1 + y2) / 2 (lines 799 and 826). -/
def centerY (b : Box) : ℚ := (b.y1 + b.y2) / 2

/-- Append to a collections.deque with maxlen cap (line 811, appended at 840):
    the oldest entries are evicted from the left when the capacity is exceeded. -/
def boundedAppend (cap : Nat) (xs : List ℚ) (y : ℚ) : List ℚ :=
  let r := xs ++ [y]
  r.drop (r.length - cap)

/-- recent_movement update (lines 865-867): append, then pop(0) once length
    exceeds 4. -/
def pushMovement (rm : List Bool) (b : Bool) : List Bool :=
  let r := rm ++ [b]
  if 4 < r.length then r.tail else r

/-- violation_history update (lines 984-986): append, then pop(0) once length
    exceeds 5. -/
def pushViolation (vh : List Bool) (b : Bool) : List Bool :=
  let r := vh ++ [b]
  if 5 < r.length then r.tail else r

/-- Python negative indexing xs[-i] for 1 ≤ i ≤ xs.length (defaulting to 0 out
    of range, which the code never does). -/
def negIdx (xs : List ℚ) (i : Nat) : ℚ := xs.getD (xs.length - i) 0

/-- Suspicious position-jump check (lines 824-837): if the jump from
    last_position exceeds max_position_jump the counter is incremented, and once
    it exceeds 2 the violation trust is wiped and the counter reset to 0. -/
def jumpCheck (st : TrackStatus) (center_y : ℚ) : TrackStatus :=
  match st.last_position with
  | none => st
  | some last_y =>
    if max_position_jump < |center_y - last_y| then
      if 2 < st.suspicious_jumps + 1 then
        { st with crossed_during_red := false, suspicious_jumps := 0 }
      else
        { st with suspicious_jumps := st.suspicious_jumps + 1 }
    else st

/-- Movement classification over the post-append history (lines 844-862):
    a 3-frame displacement above the threshold, or a 5-frame displacement above
    1.5x the threshold, counts as detected movement. -/
def movementDetected (ps : List ℚ) : Bool :=
  if 3 ≤ ps.length then
    decide (movement_threshold < |negIdx ps 1 - negIdx ps 3|) ||
      (decide (5 ≤ ps.length) &&
        decide (movement_threshold * (3 / 2) < |negIdx ps 1 - negIdx ps 5|))
  else false

/-- Movement smoothing (lines 869-873): moving iff at least 2 samples are
    present and at least half of them are true. -/
def isMovingOf (rm : List Bool) : Bool :=
  decide (2 ≤ rm.length) && decide (rm.length ≤ 2 * rm.count true)

/-- One tracked vehicle as assembled per frame (lines 880-886), carrying its
    per-track state maps inline (the Python dicts are keyed by the unique id). -/
structure TrackEntry where
  id : Nat
  bbox : Box
  center_y : ℚ
  is_moving : Bool
  is_violation : Bool
  history : List ℚ
  status : TrackStatus
deriving DecidableEq, Repr

/-- Tracking-pass update for one re-identified track (lines 806-886): jump
    check, history append, last_position update, movement classification and
    smoothing; the per-frame violation flag is initialized to false (line 878). -/
def trackingPass (hist : List ℚ) (st : TrackStatus) (id : Nat) (box : Box) : TrackEntry :=
  let cy := centerY box
  let st1 := jumpCheck st cy
  let hist1 := boundedAppend position_history_size hist cy
  let st2 := { st1 with last_position := some cy }
  let md := movementDetected hist1
  let rm1 := pushMovement st2.recent_movement md
  let st3 := { st2 with recent_movement := rm1 }
  { id := id
    bbox := box
    center_y := cy
    is_moving := isMovingOf rm1
    is_violation := false
    history := hist1
    status := st3 }

/-- Pair condition of the crossing scan (line 938):
    prev_y < violation_line_y and curr_y >= violation_line_y, for the pair of
    positions i+1 and i frames from the end of the history. -/
def crossesAtB (ph : List ℚ) (line_y : ℚ) (i : Nat) : Bool :=
  decide (negIdx ph (i + 1) < line_y) && decide (line_y ≤ negIdx ph i)

/-- Crossing details recorded at lines 940-945. -/
structure CrossingDetails where
  frames_ago : Nat
  prev_y : ℚ
  curr_y : ℚ
  window_checked : Nat
deriving DecidableEq, Repr

/-- Crossing-window scan (lines 925-947): with window_size =
    min(crossing_check_window, len(history)), the loop for i in
    range(1, window_size) checks each consecutive pair and stops at the first
    (most recent) qualifying transition. -/
def scanCrossing (ph : List ℚ) (line_y : ℚ) : Option CrossingDetails :=
  if 2 ≤ ph.length then
    let ws := min crossing_check_window ph.length
    ((List.range' 1 (ws - 1)).find? (fun i => crossesAtB ph line_y i)).map
      (fun i => { frames_ago := i
                  prev_y := negIdx ph (i + 1)
                  curr_y := negIdx ph i
                  window_checked := ws })
  else none

/-- Truncation toward zero, as Python int() applied to a float coordinate. -/
def pyInt (q : ℚ) : Int := q.num.tdiv q.den

/-- Violation Record assembled at lines 1004-1015 (the wall-clock timestamp and
    raw frame are omitted: they are external inputs with no bearing on the
    record's decision content). -/
structure ViolationRecord where
  track_id : Nat
  bbox : List Int
  violation_type : String
  line_position : ℚ
  movement : Sum CrossingDetails (ℚ × ℚ)
  crossing_window : Nat
  position_history : List ℚ
deriving DecidableEq, Repr

/-- Per-track violation evaluation (lines 917-1021), run only when the frame
    gate at line 913 is open: crossing scan, red gating of the sticky
    crossed_during_red flag, forced clearing when the light is not red,
    per-frame violation flag, violation_history bookkeeping, and conditional
    emission of a Violation Record. -/
def evalVehicle (e : TrackEntry) (line_y : ℚ) (is_red : Bool) : TrackEntry × Option ViolationRecord :=
  let crossing := scanCrossing e.history line_y
  let actively_crossing := crossing.isSome && e.is_moving && is_red
  let st1 : TrackStatus :=
    if actively_crossing && decide (e.status.suspicious_jumps ≤ 1) then
      { e.status with crossed_during_red := true }
    else e.status
  let st2 : TrackStatus := if is_red then st1 else { st1 with crossed_during_red := false }
  let isv := st2.crossed_during_red && is_red
  let st3 : TrackStatus := { st2 with violation_history := pushViolation st2.violation_history actively_crossing }
  let e1 : TrackEntry := { e with status := st3, is_violation := isv }
  let vrec :=
    if actively_crossing && decide (st3.suspicious_jumps ≤ 1) then
      some { track_id := e.id
             bbox := [pyInt e.bbox.x1, pyInt e.bbox.y1, pyInt e.bbox.x2, pyInt e.bbox.y2]
             violation_type := "line_crossing"
             line_position := line_y
             movement :=
               match crossing with
               | some d => Sum.inl d
               | none => Sum.inr (e.center_y, e.center_y)
             crossing_window := crossing_check_window
             position_history := e.history.drop (e.history.length - 10) }
    else none
  (e1, vrec)

/-- Full per-frame processing of one tracked vehicle: the tracking pass always
    runs (lines 736-886); the violation evaluation runs only when a traffic
    light was detected and a violation line exists (line 913 gate, specialized
    to this track). -/
def fullTrackStep (hist : List ℚ) (st : TrackStatus) (id : Nat) (box : Box)
    (hasTL : Bool) (lineY : Option ℚ) (is_red : Bool) : TrackEntry × Option ViolationRecord :=
  let e := trackingPass hist st id box
  match hasTL, lineY with
  | true, some ly => evalVehicle e ly is_red
  | _, _ => (e, none)

/-- One raw detection; only the canonical class label matters to the gate. -/
structure Detection where
  class_name : String
deriving DecidableEq, Repr

/-- has_traffic_lights as computed by the scan over detections (lines 658-662). -/
def computeHasTrafficLights (dets : List Detection) : Bool :=
  dets.any (fun d => is_traffic_light d.class_name)

/-- Line Locator gating (lines 682-730): the external crosswalk detector is
    consulted only when a traffic light and its position exist; otherwise
    violation_line_y is None. -/
def computeViolationLine (hasTL : Bool) (tlPos : Option (ℚ × ℚ)) (extLine : Option ℚ) : Option ℚ :=
  if hasTL && tlPos.isSome then extLine else none

/-- Global Light State dict {color, confidence}. -/
structure LightInfo where
  color : String
  confidence : ℚ
deriving DecidableEq, Repr

/-- is_red_light (line 950). -/
def isRedLight (latest : LightInfo) : Bool := latest.color == "red"

/-- Frame-level violation pass (lines 911-1021): runs per-track evaluation only
    when a traffic light was detected, a violation line exists and at least one
    tracked vehicle is present; otherwise leaves all track state untouched and
    emits nothing.  Track ids are unique (tracker contract), so the per-track
    dict updates are independent and modelled as a map. -/
def violationPass (hasTL : Bool) (lineY : Option ℚ) (is_red : Bool)
    (tracked : List TrackEntry) : List TrackEntry × List ViolationRecord :=
  match hasTL, lineY with
  | true, some ly =>
    if tracked.isEmpty then (tracked, [])
    else
      let results := tracked.map (fun e => evalVehicle e ly is_red)
      (results.map Prod.fst, results.filterMap Prod.snd)
  | _, _ => (tracked, [])

/-- Frame-level composition for the violation decision: detection scan, line
    locator gating, then the violation pass. -/
def frameViolationPass (dets : List Detection) (tlPos : Option (ℚ × ℚ))
    (extLine : Option ℚ) (latest : LightInfo) (tracked : List TrackEntry) :
    List TrackEntry × List ViolationRecord :=
  violationPass (computeHasTrafficLights dets)
    (computeViolationLine (computeHasTrafficLights dets) tlPos extLine) (isRedLight latest) tracked

/-- Python max(red_lights, key=confidence): first element attaining the maximal
    confidence (line 1245). -/
def maxByConf (x : LightInfo) (xs : List LightInfo) : LightInfo :=
  xs.foldl (fun b t => if b.confidence < t.confidence then t else b) x

/-- Per-detection drawing pass (lines 1194-1204): each traffic-light detection
    that the external classifier handles overwrites latest_traffic_light with
    its classified color, so the last classified light wins. -/
def drawingPassLight (prev : LightInfo) (classified : List LightInfo) : LightInfo :=
  classified.getLast?.getD prev

/-- Consensus block (lines 1240-1250): if any collected traffic light is red,
    latest_traffic_light is set to red with the highest red confidence;
    otherwise it is left as it stands. -/
def consensusLight (cur : LightInfo) (collected : List LightInfo) : LightInfo :=
  match collected.filter (fun tl => tl.color == "red") with
  | [] => cur
  | r :: rs => { color := "red", confidence := (maxByConf r rs).confidence }

/-- Net per-frame update of latest_traffic_light: the drawing pass applies each
    classified color in turn (line 1204), then the consensus block runs over the
    collected color sub-results, which comprise any detector-supplied entries
    (lines 659-665) followed by the classified entries (lines 1232-1237). -/
def frameLightUpdate (prev : LightInfo) (pre classified : List LightInfo) : LightInfo :=
  consensusLight (drawingPassLight prev classified) (pre ++ classified)

/-- Translation of _cleanup_old_vehicle_data (lines 1450-1469): ids present in
    vehicle_history but absent from the current tracker output are deleted from
    both state maps.  The dicts are modelled as association lists. -/
def cleanup_old_vehicle_data (history : List (Nat × List ℚ))
    (statuses : List (Nat × TrackStatus)) (current : List Nat) :
    List (Nat × List ℚ) × List (Nat × TrackStatus) :=
  let old_ids := (history.map Prod.fst).filter (fun k => decide (k ∉ current))
  (history.filter (fun p => decide (p.1 ∉ old_ids)),
   statuses.filter (fun p => decide (p.1 ∉ old_ids)))

/-- Helper: first-match specification of List.find? over a contiguous range of
    indices: the result satisfies the test, lies in the range, and every
    earlier index in the range fails the test. -/
theorem find?_range'_first (p : Nat → Bool) :
    ∀ (n s i : Nat), (List.range' s n).find? p = some i →
      s ≤ i ∧ i < s + n ∧ p i = true ∧ ∀ j, s ≤ j → j < i → p j = false := by
  intro n
  induction n with
  | zero =>
    intro s i h
    simp [List.range'] at h
  | succ n ih =>
    intro s i h
    rw [List.range'_succ] at h
    by_cases hp : p s = true
    · rw [List.find?_cons_of_pos _ hp] at h
      injection h with h
      subst h
      exact ⟨Nat.le_refl _, by omega, hp, fun j hj1 hj2 => absurd hj1 (by omega)⟩
    · rw [List.find?_cons_of_neg _ hp] at h
      obtain ⟨h1, h2, h3, h4⟩ := ih (s + 1) i h
      refine ⟨by omega, by omega, h3, ?_⟩
      intro j hj1 hj2
      rcases Nat.eq_or_lt_of_le hj1 with heq | hlt
      · subst heq
        exact Bool.not_eq_true _ |>.mp hp
      · exact h4 j hlt hj2

/-- Helper: the crossing scan reports a crossing exactly when some index in the
    scanned range 1 .. min(crossing_check_window, length) - 1 satisfies the
    pair condition. -/
theorem scanCrossing_isSome_iff (ph : List ℚ) (line_y : ℚ) :
    (scanCrossing ph line_y).isSome = true ↔
      ∃ i, 1 ≤ i ∧ i < min crossing_check_window ph.length ∧ crossesAtB ph line_y i = true := by
  unfold scanCrossing
  by_cases h2 : 2 ≤ ph.length
  · rw [if_pos h2]
    simp only [Option.isSome_map']
    rw [List.find?_isSome]
    constructor
    · rintro ⟨i, hmem, hp⟩
      rw [List.mem_range'_1] at hmem
      have hws : 2 ≤ min crossing_check_window ph.length := by
        simp only [crossing_check_window]
        omega
      exact ⟨i, hmem.1, by omega, hp⟩
    · rintro ⟨i, h1, hlt, hp⟩
      refine ⟨i, ?_, hp⟩
      rw [List.mem_range'_1]
      exact ⟨h1, by omega⟩
  · rw [if_neg h2]
    simp only [Option.isSome_none]
    constructor
    · intro h
      cases h
    · rintro ⟨i, h1, hlt, _⟩
      have hmin : min crossing_check_window ph.length ≤ ph.length := Nat.min_le_right _ _
      exact absurd hlt (by omega)

/-- Helper: when the crossing scan returns details, the reported frames-ago
    index is in the scanned range, its pair satisfies the condition, the
    recorded prev/curr positions are that pair, and every more recent scanned
    pair fails the condition (the scan stops at the first match). -/
theorem scanCrossing_some_spec (ph : List ℚ) (line_y : ℚ) (d : CrossingDetails)
    (h : scanCrossing ph line_y = some d) :
    1 ≤ d.frames_ago ∧ d.frames_ago < min crossing_check_window ph.length ∧
    crossesAtB ph line_y d.frames_ago = true ∧
    d.prev_y = negIdx ph (d.frames_ago + 1) ∧
    d.curr_y = negIdx ph d.frames_ago ∧
    d.window_checked = min crossing_check_window ph.length ∧
    ∀ j, 1 ≤ j → j < d.frames_ago → crossesAtB ph line_y j = false := by
  unfold scanCrossing at h
  by_cases h2 : 2 ≤ ph.length
  · rw [if_pos h2] at h
    simp only [Option.map_eq_some'] at h
    obtain ⟨i, hfind, hd⟩ := h
    obtain ⟨h1, hlt, hp, hfirst⟩ := find?_range'_first _ _ _ _ hfind
    subst hd
    have hws : 2 ≤ min crossing_check_window ph.length := by
      simp only [crossing_check_window]
      omega
    dsimp only
    exact ⟨h1, by omega, hp, rfl, rfl, rfl, fun j hj1 hj2 => hfirst j hj1 hj2⟩
  · rw [if_neg h2] at h
    cases h

/-- Helper: one jump check increments the suspicious-jump counter by at most
    one, and keeps it at most 2 whenever it was at most 2 before. -/
theorem jumpCheck_susp_le (st : TrackStatus) (cy : ℚ) (h : st.suspicious_jumps ≤ 2) :
    (jumpCheck st cy).suspicious_jumps ≤ 2 ∧
    (jumpCheck st cy).suspicious_jumps ≤ st.suspicious_jumps + 1 := by
  unfold jumpCheck
  cases hl : st.last_position with
  | none => exact ⟨h, Nat.le_succ _⟩
  | some ly =>
    dsimp only
    split_ifs with h1 h2 <;> (try dsimp only) <;> omega

/-- Helper: the tracking pass leaves the suspicious-jump counter exactly as the
    jump check set it (the later updates touch only other fields). -/
theorem trackingPass_susp (hist : List ℚ) (st : TrackStatus) (id : Nat) (box : Box) :
    (trackingPass hist st id box).status.suspicious_jumps
      = (jumpCheck st (centerY box)).suspicious_jumps := by
  simp [trackingPass]

/-- Helper: the violation evaluation never modifies the suspicious-jump
    counter. -/
theorem evalVehicle_susp (e : TrackEntry) (ly : ℚ) (r : Bool) :
    ((evalVehicle e ly r).1).status.suspicious_jumps = e.status.suspicious_jumps := by
  simp only [evalVehicle]
  split_ifs <;> rfl

/-- C1: on any violation evaluation performed with is_red_light false, the
    track's sticky crossed_during_red flag is forced to false by the reset at
    lines 974-978, regardless of the track's geometry, history or prior
    status. -/
theorem c1_nonred_eval_clears_crossed (e : TrackEntry) (line_y : ℚ) :
    ((evalVehicle e line_y false).1).status.crossed_during_red = false := by
  simp [evalVehicle]

/-- C2 counterexample: in a frame with no traffic-light detection the
    evaluation gate (line 913) is closed, so a track whose sticky
    crossed_during_red flag is still true from an earlier red phase keeps the
    flag while its per-frame violation flag stays at its initialized false
    (line 878), even though the sticky global light state is still red; the
    claimed frame-level equivalence is_violation = crossed_during_red AND
    is_red fails there. -/
theorem c2_counterexample :
    ¬ (((fullTrackStep [150, 150] ⟨[], [], true, some 150, 0⟩ 3 ⟨0, 100, 0, 200⟩ false none true).1).is_violation
        = (((fullTrackStep [150, 150] ⟨[], [], true, some 150, 0⟩ 3 ⟨0, 100, 0, 200⟩ false none true).1).status.crossed_during_red
            && true)) := by
  with_unfolding_all decide

/-- C2 amended: whenever the violation evaluation actually runs for a track
    (traffic light detected and violation line present), the per-frame
    violation flag equals (updated crossed_during_red) AND is_red_light; in
    frames where the evaluation is skipped the flag is the initialized false
    regardless of the track's sticky state and of the light state. -/
theorem c2_amended_flag_iff :
    (∀ (e : TrackEntry) (line_y : ℚ) (is_red : Bool),
        ((evalVehicle e line_y is_red).1).is_violation
          = (((evalVehicle e line_y is_red).1).status.crossed_during_red && is_red)) ∧
    (∀ (hist : List ℚ) (st : TrackStatus) (id : Nat) (box : Box) (lineY : Option ℚ) (is_red : Bool),
        ((fullTrackStep hist st id box false lineY is_red).1).is_violation = false) ∧
    (∀ (hist : List ℚ) (st : TrackStatus) (id : Nat) (box : Box) (hasTL : Bool) (is_red : Bool),
        ((fullTrackStep hist st id box hasTL none is_red).1).is_violation = false) := by
  refine ⟨?_, ?_, ?_⟩
  · intro e line_y is_red
    cases is_red <;> simp [evalVehicle]
  · intro hist st id box lineY is_red
    cases lineY <;> simp [fullTrackStep, trackingPass]
  · intro hist st id box hasTL is_red
    cases hasTL <;> simp [fullTrackStep, trackingPass]

/-- C9: the label normalizer is idempotent: normalizing an already-normalized
    label is the identity for every input label. -/
theorem c9_normalize_idempotent (L : String) :
    normalize_class_name (normalize_class_name L) = normalize_class_name L := by
  have hcanon : ∀ s ∈ (["", "traffic light", "car", "truck", "bus", "motorcycle", "person"] : List String),
      normalize_class_name s = s := by with_unfolding_all decide
  have hcases : normalize_class_name L = L ∨
      normalize_class_name L ∈ (["", "traffic light", "car", "truck", "bus", "motorcycle", "person"] : List String) := by
    unfold normalize_class_name
    split_ifs <;> first | exact Or.inl rfl | (right; with_unfolding_all decide)
  rcases hcases with h | h
  · rw [h]
    exact h
  · exact hcanon _ h

/-- C3: the crossing-window scan reports a crossing exactly when some scanned
    consecutive pair satisfies prev_y < line_y ≤ curr_y, stops at the first
    (most recent) qualifying pair, records frames-ago together with that pair's
    prev_y and curr_y, and in particular detects the 20 -> 30 crossing one
    frame back for history [10, 20, 30] with violation_line_y = 25. -/
theorem c3_crossing_scan_correct :
    (∀ (ph : List ℚ) (line_y : ℚ), (scanCrossing ph line_y).isSome = true ↔
        ∃ i, 1 ≤ i ∧ i < min crossing_check_window ph.length ∧ crossesAtB ph line_y i = true) ∧
    (∀ (ph : List ℚ) (line_y : ℚ) (d : CrossingDetails), scanCrossing ph line_y = some d →
        crossesAtB ph line_y d.frames_ago = true ∧
        d.prev_y = negIdx ph (d.frames_ago + 1) ∧
        d.curr_y = negIdx ph d.frames_ago ∧
        ∀ j, 1 ≤ j → j < d.frames_ago → crossesAtB ph line_y j = false) ∧
    scanCrossing [10, 20, 30] 25 = some ⟨1, 20, 30, 3⟩ := by
  refine ⟨scanCrossing_isSome_iff, ?_, by decide⟩
  intro ph line_y d h
  obtain ⟨h1, h2, h3, h4, h5, h6, h7⟩ := scanCrossing_some_spec ph line_y d h
  exact ⟨h3, h4, h5, h7⟩

/-- Witness for C3 at the concrete history [10, 20, 30] with line 25. -/
theorem c3_witness :
    crossesAtB [10, 20, 30] 25 1 = true ∧
    scanCrossing [10, 20, 30] 25 = some ⟨1, 20, 30, 3⟩ :=
  ⟨(c3_crossing_scan_correct.2.1 [10, 20, 30] 25 ⟨1, 20, 30, 3⟩ c3_crossing_scan_correct.2.2).1,
   c3_crossing_scan_correct.2.2⟩

/-- C4 counterexample: for the (crossing_check_window + 1)-entry history
    [10, 30, 30, 30, 30, 30, 30, 30, 30] with line 25, the 8th most recent
    consecutive pair (10 -> 30) satisfies the crossing condition, yet the scan
    reports nothing: the loop for i in range(1, window_size) with
    window_size = 8 examines only the 7 most recent pairs, not 8. -/
theorem c4_counterexample :
    ([10, 30, 30, 30, 30, 30, 30, 30, 30] : List ℚ).length = crossing_check_window + 1 ∧
    crossesAtB [10, 30, 30, 30, 30, 30, 30, 30, 30] 25 crossing_check_window = true ∧
    scanCrossing [10, 30, 30, 30, 30, 30, 30, 30, 30] 25 = none := by
  exact ⟨by decide, by decide, by decide⟩

/-- C4 amended: for a history holding at least crossing_check_window + 1
    entries, the scan examines exactly the crossing_check_window - 1 = 7 most
    recent consecutive pairs (the pairs among the 8 most recent positions): it
    reports a crossing iff one of the pairs 1 .. 7 frames back qualifies. -/
theorem c4_amended_scan_window (ph : List ℚ) (line_y : ℚ)
    (h : crossing_check_window + 1 ≤ ph.length) :
    (scanCrossing ph line_y).isSome = true ↔
      ∃ i, 1 ≤ i ∧ i ≤ crossing_check_window - 1 ∧ crossesAtB ph line_y i = true := by
  rw [scanCrossing_isSome_iff]
  constructor
  · rintro ⟨i, h1, h2, h3⟩
    refine ⟨i, h1, ?_, h3⟩
    simp only [crossing_check_window] at h h2 ⊢
    omega
  · rintro ⟨i, h1, h2, h3⟩
    refine ⟨i, h1, ?_, h3⟩
    simp only [crossing_check_window] at h h2 ⊢
    omega

/-- Witness for C4's amended claim: a 9-entry history whose only qualifying
    pair lies 6 frames back is reported by the scan. -/
theorem c4_witness :
    (scanCrossing [0, 0, 10, 30, 30, 30, 30, 30, 30] 25).isSome = true :=
  (c4_amended_scan_window [0, 0, 10, 30, 30, 30, 30, 30, 30] 25 (by decide)).mpr
    ⟨6, by decide, by decide, by decide⟩

/-- C5 counterexample: a track entering the frame with suspicious_jumps = 2
    registers a third oversized jump (90 -> 150, 60px > 50px); the jump check
    clears crossed_during_red and resets the counter to 0, but precisely
    because of that reset the same frame's evaluation passes the
    suspicious_jumps <= 1 gate and a Violation Record IS emitted for the
    crossing reported in the frame of the third jump, contradicting the
    claim's no-emission part. -/
theorem c5_counterexample :
    ((⟨[true, true, true], [], false, some 90, 2⟩ : TrackStatus)).suspicious_jumps = 2 ∧
    max_position_jump < |centerY ⟨0, 100, 0, 200⟩ - 90| ∧
    (fullTrackStep [0, 0, 90] ⟨[true, true, true], [], false, some 90, 2⟩ 7
        ⟨0, 100, 0, 200⟩ true (some 100) true).2 ≠ none := by
  exact ⟨rfl, by with_unfolding_all decide, by with_unfolding_all decide⟩

/-- C5 amended: a third oversized jump does forcibly clear crossed_during_red
    and reset suspicious_jumps to 0 during the frame's jump check; but because
    the counter is reset to 0 before the violation evaluation, a crossing
    reported in the same frame passes the suspicious-jumps gate, so a
    Violation Record can still be emitted in the frame of the third jump (the
    closed second conjunct exhibits such a frame). -/
theorem c5_amended_jump_reset (st : TrackStatus) (cy last_y : ℚ)
    (hlast : st.last_position = some last_y)
    (hjump : max_position_jump < |cy - last_y|)
    (hcount : 2 ≤ st.suspicious_jumps) :
    ((jumpCheck st cy).crossed_during_red = false ∧ (jumpCheck st cy).suspicious_jumps = 0) ∧
    (fullTrackStep [0, 0, 90] ⟨[true, true, true], [], false, some 90, 2⟩ 7
        ⟨0, 100, 0, 200⟩ true (some 100) true).2 ≠ none := by
  refine ⟨?_, by with_unfolding_all decide⟩
  unfold jumpCheck
  rw [hlast]
  dsimp only
  rw [if_pos hjump, if_pos (by omega)]
  exact ⟨rfl, rfl⟩

/-- Witness for C5's amended claim at a concrete third-jump state. -/
theorem c5_witness :
    ((jumpCheck ⟨[], [], true, some 0, 2⟩ 60).crossed_during_red = false ∧
     (jumpCheck ⟨[], [], true, some 0, 2⟩ 60).suspicious_jumps = 0) ∧
    (fullTrackStep [0, 0, 90] ⟨[true, true, true], [], false, some 90, 2⟩ 7
        ⟨0, 100, 0, 200⟩ true (some 100) true).2 ≠ none :=
  c5_amended_jump_reset ⟨[], [], true, some 0, 2⟩ 60 0 rfl
    (by with_unfolding_all decide) (by decide)

/-- C6 counterexample: with previous global state red and a single traffic
    light classified green in the frame (so no collected color is red), the
    per-detection pass at line 1204 overwrites latest_traffic_light with the
    green result, so the frame does not leave the previous state unchanged. -/
theorem c6_counterexample :
    (([⟨"green", 1⟩] : List LightInfo).filter (fun tl => tl.color == "red") = []) ∧
    frameLightUpdate ⟨"red", 1⟩ [] [⟨"green", 1⟩] ≠ ⟨"red", 1⟩ := by
  exact ⟨by decide, by decide⟩

/-- C6 amended: when no collected traffic light of the frame is classified
    red, the consensus block makes no change, so the frame's net effect is
    the per-detection pass alone: latest_traffic_light becomes the last
    classified light's result, and is left unchanged only when no traffic
    light was classified at all; a classified non-red light therefore demotes
    the state rather than being ignored. -/
theorem c6_amended_no_red_update (prev : LightInfo) (pre classified : List LightInfo)
    (h : ∀ tl ∈ pre ++ classified, tl.color ≠ "red") :
    frameLightUpdate prev pre classified = classified.getLast?.getD prev := by
  have hfil : (pre ++ classified).filter (fun tl => tl.color == "red") = [] := by
    rw [List.filter_eq_nil_iff]
    intro a ha
    simpa using h a ha
  unfold frameLightUpdate consensusLight drawingPassLight
  rw [hfil]

/-- Witness for C6's amended claim: a frame classifying green then yellow ends
    with the yellow result. -/
theorem c6_witness :
    frameLightUpdate ⟨"red", 1⟩ [] [⟨"green", 1⟩, ⟨"yellow", 1⟩] = ⟨"yellow", 1⟩ := by
  rw [c6_amended_no_red_update ⟨"red", 1⟩ [] [⟨"green", 1⟩, ⟨"yellow", 1⟩] (by decide)]
  decide

/-- C7: in a frame with zero traffic-light detections no violation line is
    computed (lines 727-730), the evaluation gate at line 913 stays closed,
    every track's state is left untouched by the violation pass and no
    Violation Record is emitted, regardless of track geometry. -/
theorem c7_no_light_no_violation (dets : List Detection) (tlPos : Option (ℚ × ℚ))
    (extLine : Option ℚ) (latest : LightInfo) (tracked : List TrackEntry)
    (h : ∀ d ∈ dets, is_traffic_light d.class_name = false) :
    frameViolationPass dets tlPos extLine latest tracked = (tracked, []) := by
  have hTL : computeHasTrafficLights dets = false := by
    unfold computeHasTrafficLights
    rw [List.any_eq_false]
    intro d hd
    simp [h d hd]
  unfold frameViolationPass
  rw [hTL]
  rfl

/-- Witness for C7: a frame containing only car and person detections leaves
    the track list untouched and emits nothing. -/
theorem c7_witness :
    frameViolationPass [⟨"car"⟩, ⟨"person"⟩] (some (5, 5)) (some 100) ⟨"red", 1⟩ [] = ([], []) :=
  c7_no_light_no_violation [⟨"car"⟩, ⟨"person"⟩] (some (5, 5)) (some 100) ⟨"red", 1⟩ []
    (by with_unfolding_all decide)

/-- C8: after the end-of-frame cleanup every id left in vehicle_history or in
    vehicle_statuses belongs to the current tracker output, so the state maps
    hold only currently-visible track ids.  The hypothesis that every status
    key is also a history key is the program's own invariant: the two entries
    are always created together (lines 809-821) and deleted together. -/
theorem c8_cleanup_removes_stale (history : List (Nat × List ℚ))
    (statuses : List (Nat × TrackStatus)) (current : List Nat)
    (hsub : statuses.map Prod.fst ⊆ history.map Prod.fst) :
    (cleanup_old_vehicle_data history statuses current).1.map Prod.fst ⊆ current ∧
    (cleanup_old_vehicle_data history statuses current).2.map Prod.fst ⊆ current := by
  have hfst : (cleanup_old_vehicle_data history statuses current).1
      = history.filter (fun p => decide (p.1 ∉ (history.map Prod.fst).filter (fun k => decide (k ∉ current)))) := rfl
  have hsnd : (cleanup_old_vehicle_data history statuses current).2
      = statuses.filter (fun p => decide (p.1 ∉ (history.map Prod.fst).filter (fun k => decide (k ∉ current)))) := rfl
  constructor
  · intro k hk
    rw [hfst, List.mem_map] at hk
    obtain ⟨p, hp, rfl⟩ := hk
    rw [List.mem_filter, decide_eq_true_eq] at hp
    obtain ⟨hmem, hnot⟩ := hp
    by_contra hcur
    apply hnot
    rw [List.mem_filter, decide_eq_true_eq]
    exact ⟨List.mem_map.mpr ⟨p, hmem, rfl⟩, hcur⟩
  · intro k hk
    rw [hsnd, List.mem_map] at hk
    obtain ⟨p, hp, rfl⟩ := hk
    rw [List.mem_filter, decide_eq_true_eq] at hp
    obtain ⟨hmem, hnot⟩ := hp
    by_contra hcur
    apply hnot
    rw [List.mem_filter, decide_eq_true_eq]
    exact ⟨hsub (List.mem_map.mpr ⟨p, hmem, rfl⟩), hcur⟩

/-- Witness for C8: track 2 disappears from the tracker output and its
    entries leave both maps. -/
theorem c8_witness :
    (cleanup_old_vehicle_data [(1, [10]), (2, [20])] [(1, initStatus), (2, initStatus)] [1]).1.map Prod.fst ⊆ [1] ∧
    (cleanup_old_vehicle_data [(1, [10]), (2, [20])] [(1, initStatus), (2, initStatus)] [1]).2.map Prod.fst ⊆ [1] :=
  c8_cleanup_removes_stale [(1, [10]), (2, [20])] [(1, initStatus), (2, initStatus)] [1]
    (by intro x hx; simpa using hx)

/-- C10: if a track's suspicious_jumps counter enters the frame at most 2, the
    per-frame jump check leaves it at most 2, incrementing it by at most one
    and resetting it to 0 exactly when it would exceed 2; and the rest of the
    frame, including the violation evaluation that reads the counter, never
    changes it, so it is at most 2 whenever the evaluator reads it. -/
theorem c10_suspicious_jumps_bounded (st : TrackStatus) (box : Box)
    (h : st.suspicious_jumps ≤ 2) :
    (jumpCheck st (centerY box)).suspicious_jumps ≤ 2 ∧
    (jumpCheck st (centerY box)).suspicious_jumps ≤ st.suspicious_jumps + 1 ∧
    ∀ (hist : List ℚ) (id : Nat) (hasTL : Bool) (lineY : Option ℚ) (is_red : Bool),
      ((fullTrackStep hist st id box hasTL lineY is_red).1).status.suspicious_jumps ≤ 2 := by
  obtain ⟨h1, h2⟩ := jumpCheck_susp_le st (centerY box) h
  refine ⟨h1, h2, ?_⟩
  intro hist id hasTL lineY is_red
  cases hasTL <;> cases lineY <;>
    simp only [fullTrackStep, evalVehicle_susp, trackingPass_susp] <;> exact h1

/-- Witness for C10 at a concrete state with one prior suspicious jump. -/
theorem c10_witness :
    (jumpCheck ⟨[], [], false, some 0, 1⟩ (centerY ⟨0, 0, 0, 0⟩)).suspicious_jumps ≤ 2 ∧
    ((fullTrackStep [5] ⟨[], [], false, some 0, 1⟩ 1 ⟨0, 0, 0, 0⟩ true (some 3) true).1).status.suspicious_jumps ≤ 2 := by
  have h := c10_suspicious_jumps_bounded ⟨[], [], false, some 0, 1⟩ ⟨0, 0, 0, 0⟩ (by decide)
  exact ⟨h.1, h.2.2 [5] 1 true (some 3) true⟩
